import Mathlib

/-!
Shallow embedding of `isis2mongo/isis2mongo.py` (the reconciliation engine
between a legacy ISIS record store and the remote articlemeta catalog),
together with theorems settling the specification claims about it.

Python conventions modelled explicitly:
* a record is a dict from field tags to occurrence lists; the code only ever
  reads the primary value `record.get(tag, [{'_': None}])[0]['_']`, so a
  record is embedded as an association list from tag to `Option String`
  (`none` models a Python `None` primary value, a missing binding models a
  missing tag; tags are assumed distinct, as produced by the ISIS reader);
* Python string truthiness (`None` and `""` are falsy) is `pyTruthy`;
* a Python function that may raise is embedded as `Except String α`, the
  error string naming the exception class that escapes;
* Python string slicing/splitting is embedded on the character list of the
  string (`pyTake`, `pyDrop`, `pySplit`, ...), so that every definition
  evaluates by kernel reduction.
-/

namespace Isis2Mongo

/-- Decidable equality for `Except`, used to evaluate closed statements. -/
instance {ε α : Type} [DecidableEq ε] [DecidableEq α] : DecidableEq (Except ε α) := fun x y =>
  match x, y with
  | Except.ok a, Except.ok b =>
    if h : a = b then Decidable.isTrue (by rw [h])
    else Decidable.isFalse (fun hh => h (Except.ok.inj hh))
  | Except.error a, Except.error b =>
    if h : a = b then Decidable.isTrue (by rw [h])
    else Decidable.isFalse (fun hh => h (Except.error.inj hh))
  | Except.ok _, Except.error _ => Decidable.isFalse (fun hh => Except.noConfusion hh)
  | Except.error _, Except.ok _ => Decidable.isFalse (fun hh => Except.noConfusion hh)

/-- Python `s[0:n]` (clamping like a Python slice). -/
def pyTake (s : String) (n : Nat) : String := String.mk (s.data.take n)

/-- Python `s[n:]` (clamping like a Python slice). -/
def pyDrop (s : String) (n : Nat) : String := String.mk (s.data.drop n)

/-- Python `s[a:b]`. -/
def pySlice (s : String) (a b : Nat) : String := pyTake (pyDrop s a) (b - a)

/-- Python `len(s)`. -/
def pyLen (s : String) : Nat := s.data.length

/-- Python `s == ''` (string falsiness). -/
def pyEmpty (s : String) : Bool := s.data.isEmpty

/-- Python `s.replace('-', '')`: remove every dash. -/
def stripDashes (s : String) : String := String.mk (s.data.filter (fun c => c != '-'))

/-- Value of a decimal digit character. -/
def digitVal (c : Char) : Nat := c.toNat - 48

/-- Python `int(s)` for a non-empty string of decimal digits. -/
def digitsToNat (s : String) : Nat := s.data.foldl (fun a c => 10 * a + digitVal c) 0

/-- Split a character list at a separator character (Python `str.split(sep)`
semantics for a one-character separator). -/
def splitOnChar (sep : Char) : List Char → List (List Char)
  | [] => [[]]
  | c :: rest =>
    match splitOnChar sep rest with
    | [] => [[]]
    | g :: gs => if c == sep then [] :: g :: gs else (c :: g) :: gs

/-- Python `s.split('_')`. -/
def pySplit (s : String) (sep : Char) : List String :=
  (splitOnChar sep s.data).map String.mk

/-- Python `'_'.join(parts)`. -/
def pyJoin (sep : String) (parts : List String) : String :=
  String.intercalate sep parts

/-- A raw legacy (ISIS) record: tag ↦ primary value of the first occurrence. -/
structure ISISRecord where
  fields : List (String × Option String)
deriving Repr, DecidableEq

/-- Dict lookup: `some v` when the tag is bound (to primary value `v`),
`none` when the tag is absent. -/
def getTag (r : ISISRecord) (tag : String) : Option (Option String) :=
  (r.fields.find? (fun p => p.1 == tag)).map Prod.snd

/-- `record.get(tag, [{'_': dflt}])[0]['_']` — primary value with default. -/
def getPrim (r : ISISRecord) (tag : String) (dflt : Option String) : Option String :=
  (getTag r tag).getD dflt

/-- Python truthiness of a string-or-None value: `None` and `""` are falsy. -/
def pyTruthy : Option String → Bool
  | none => false
  | some s => !(pyEmpty s)

/-- Python's `"%04d" % n` for a non-negative integer. -/
def zeroPad4 (n : Nat) : String :=
  let s := toString n
  String.mk (List.replicate (4 - s.data.length) '0') ++ s

/-- The regex `^[0-9]*` (`REGEX_FIXISSUEID`) applied with `.match(...).group()`:
the leading run of decimal digits. -/
def leadingDigits (s : String) : String :=
  String.mk (s.data.takeWhile Char.isDigit)

/-- `issue_pid(record)` (isis2mongo.py lines 75-102).
The `try` block covers the `v35`/`v36` reads and the year/order slicing and
catches only `TypeError`; with this record model the only `TypeError` inside
the block is slicing a `None` `v36` (`None[0:4]`).  The concatenation
`issn + publication_year + order` stands OUTSIDE the `try`, so a `None`
`issn` raises an uncaught `TypeError` there. -/
def issue_pid (record : ISISRecord) : Except String (Option String) :=
  match getPrim record "v36" none with
  | none => Except.ok none
  | some v36 =>
    let publication_year := pyTake v36 4
    let issue_order := leadingDigits (pyDrop v36 4)
    let order := zeroPad4 (if pyEmpty issue_order then 0 else digitsToNat issue_order)
    match getPrim record "v35" none with
    | none => Except.error "TypeError"
    | some issn => Except.ok (some (issn ++ publication_year ++ order))

/-- Record with `v35` and `v36` both strings (example 1 of the docstring). -/
def exRecord1 : ISISRecord := ⟨[("v35", some "0032-281X"), ("v36", some "20023")]⟩

/-- Docstring example 2. -/
def exRecord2 : ISISRecord := ⟨[("v35", some "0032-281X"), ("v36", some "200221")]⟩

/-- Docstring example 3 (dash-suffixed order). -/
def exRecord3 : ISISRecord := ⟨[("v35", some "0032-281X"), ("v36", some "20021-4")]⟩

/-- Docstring example 4 (bare year). -/
def exRecord4 : ISISRecord := ⟨[("v35", some "0032-281X"), ("v36", some "2002")]⟩

/-- Record with `v36` present but `v35` absent. -/
def exRecordNoIssn : ISISRecord := ⟨[("v36", some "20023")]⟩

/-- Record with `v35` present but `v36` absent. -/
def exRecordNoYear : ISISRecord := ⟨[("v35", some "0032-281X")]⟩

/-- C1: for every record whose `v35` primary value is a string and whose `v36`
primary value is a string of at least 4 characters, `issue_pid` returns the
concatenation of the `v35` value, the first 4 characters of the `v36` value,
and the leading run of decimal digits of the remainder of the `v36` value
(or 0 if that run is empty) zero-padded to 4 digits. -/
theorem issue_pid_derivation (r : ISISRecord) (issn v36 : String)
    (h35 : getPrim r "v35" none = some issn)
    (h36 : getPrim r "v36" none = some v36)
    (_hlen : 4 ≤ pyLen v36) :
    issue_pid r = Except.ok (some (issn ++ pyTake v36 4 ++
      zeroPad4 (if pyEmpty (leadingDigits (pyDrop v36 4)) then 0
                else digitsToNat (leadingDigits (pyDrop v36 4))))) := by
  unfold issue_pid
  rw [h36, h35]

/-- C1 witness: the four examples from the spec (and the source docstring),
each obtained by applying `issue_pid_derivation` at the concrete record. -/
theorem issue_pid_derivation_witness :
    issue_pid exRecord1 = Except.ok (some "0032-281X20020003") ∧
    issue_pid exRecord2 = Except.ok (some "0032-281X20020021") ∧
    issue_pid exRecord3 = Except.ok (some "0032-281X20020001") ∧
    issue_pid exRecord4 = Except.ok (some "0032-281X20020000") := by
  refine ⟨?_, ?_, ?_, ?_⟩
  · exact (issue_pid_derivation exRecord1 "0032-281X" "20023" rfl rfl (by decide)).trans (by decide)
  · exact (issue_pid_derivation exRecord2 "0032-281X" "200221" rfl rfl (by decide)).trans (by decide)
  · exact (issue_pid_derivation exRecord3 "0032-281X" "20021-4" rfl rfl (by decide)).trans (by decide)
  · exact (issue_pid_derivation exRecord4 "0032-281X" "2002" rfl rfl (by decide)).trans (by decide)

/-- C3 counterexample: with `v35` absent but `v36` present, `issue_pid` does
NOT return the "no PID" result `None`; the concatenation
`issn + publication_year + order` sits outside the `try`/`except TypeError`
block, so `None + "2002"` raises an uncaught `TypeError`. -/
theorem issue_pid_missing_v35_raises :
    issue_pid exRecordNoIssn = Except.error "TypeError" ∧
    issue_pid exRecordNoIssn ≠ Except.ok none := by
  refine ⟨rfl, ?_⟩
  intro h
  rw [show issue_pid exRecordNoIssn = Except.error "TypeError" from rfl] at h
  exact Except.noConfusion h

/-- C3 amended: `issue_pid` returns `None` when a `TypeError` arises inside
the slicing/parsing block — in particular whenever `v36` is absent or its
primary value is `None` (whether or not `v35` is present); but when `v35` is
absent (or `None`) while `v36` holds a string, the final concatenation raises
a `TypeError` that is not caught, instead of returning `None`. -/
theorem issue_pid_error_handling_amended :
    (∀ r : ISISRecord, getPrim r "v36" none = none →
      issue_pid r = Except.ok none) ∧
    (∀ (r : ISISRecord) (s : String), getPrim r "v35" none = none →
      getPrim r "v36" none = some s → issue_pid r = Except.error "TypeError") := by
  constructor
  · intro r h36
    unfold issue_pid
    rw [h36]
  · intro r s h35 h36
    unfold issue_pid
    rw [h36, h35]

/-- C3 amended witness: both halves applied at concrete records — `v36`
absent with `v35` present returns `None`; `v35` absent with `v36` a string
raises `TypeError`. -/
theorem issue_pid_error_handling_amended_witness :
    issue_pid exRecordNoYear = Except.ok none ∧
    issue_pid exRecordNoIssn = Except.error "TypeError" := by
  constructor
  · exact issue_pid_error_handling_amended.1 exRecordNoYear rfl
  · exact issue_pid_error_handling_amended.2 exRecordNoIssn "20023" rfl rfl

/-! ### Record normalization (`prepare_record`, isis2mongo.py lines 107-142) -/

/-- Python `str.isdigit()` restricted to ASCII: non-empty and all digits. -/
def isdigitStr (s : String) : Bool := !(s.data.isEmpty) && s.data.all Char.isDigit

/-- The tag-renaming loop of `prepare_record` (lines 108-111): every
purely-numeric tag `T` becomes `vT`.  Tags are assumed distinct, so
dict-update order does not matter and a map suffices. -/
def renameTags (fields : List (String × Option String)) : List (String × Option String) :=
  fields.map (fun p => (if isdigitStr p.1 then "v" ++ p.1 else p.1, p.2))

/-- Record with its numeric tags renamed. -/
def renameRecord (r : ISISRecord) : ISISRecord := ⟨renameTags r.fields⟩

/-- Python dict assignment `record[tag] = v`: update in place if the key is
bound, append otherwise. -/
def setTag (fields : List (String × Option String)) (tag : String) (v : Option String) :
    List (String × Option String) :=
  if fields.any (fun p => p.1 == tag) then
    fields.map (fun p => if p.1 == tag then (p.1, v) else p)
  else
    fields ++ [(tag, v)]

/-- Python `del record[tag]` / a record with one tag removed. -/
def eraseTag (fields : List (String × Option String)) (tag : String) :
    List (String × Option String) :=
  fields.filter (fun p => p.1 != tag)

/-- Leap year (Gregorian), as `datetime.date` uses. -/
def isLeap (y : Nat) : Bool := y % 4 == 0 && (y % 100 != 0 || y % 400 == 0)

/-- Days in a month (Gregorian), as `datetime.date` uses. -/
def daysInMonth (y m : Nat) : Nat :=
  if m == 2 then (if isLeap y then 29 else 28)
  else if m == 4 || m == 6 || m == 9 || m == 11 then 30
  else 31

/-- The `%m` directive of `_strptime`: regex `(1[0-2]|0[1-9]|[1-9])`,
alternatives listed in matching-preference order, each returning the parsed
month and the unconsumed characters. -/
def monthCands (l : List Char) : List (Nat × List Char) :=
  (match l with
   | '1' :: c :: rest => if '0' ≤ c && c ≤ '2' then [(10 + digitVal c, rest)] else []
   | _ => []) ++
  (match l with
   | '0' :: c :: rest => if '1' ≤ c && c ≤ '9' then [(digitVal c, rest)] else []
   | _ => []) ++
  (match l with
   | c :: rest => if '1' ≤ c && c ≤ '9' then [(digitVal c, rest)] else []
   | _ => [])

/-- The `%d` directive of `_strptime`: regex `(3[01]|[12][0-9]|0[1-9]|[1-9])`,
alternatives in matching-preference order. -/
def dayCands (l : List Char) : List (Nat × List Char) :=
  (match l with
   | '3' :: c :: rest => if '0' ≤ c && c ≤ '1' then [(30 + digitVal c, rest)] else []
   | _ => []) ++
  (match l with
   | c1 :: c2 :: rest =>
     if ('1' ≤ c1 && c1 ≤ '2') && c2.isDigit then [(10 * digitVal c1 + digitVal c2, rest)] else []
   | _ => []) ++
  (match l with
   | '0' :: c :: rest => if '1' ≤ c && c ≤ '9' then [(digitVal c, rest)] else []
   | _ => []) ++
  (match l with
   | c :: rest => if '1' ≤ c && c ≤ '9' then [(digitVal c, rest)] else []
   | _ => [])

/-- `datetime.strptime(s, '%Y%m%d')`: `%Y` consumes exactly four digits, then
`%m`/`%d` match with backtracking and the whole string must be consumed; the
resulting (y, m, d) must be a valid `datetime.date` (year ≥ 1).  `none`
models the `ValueError` Python raises on failure. -/
def strptimeYmd (s : String) : Option (Nat × Nat × Nat) :=
  match s.data with
  | y1 :: y2 :: y3 :: y4 :: rest =>
    if y1.isDigit && y2.isDigit && y3.isDigit && y4.isDigit then
      let y := ((digitVal y1 * 10 + digitVal y2) * 10 + digitVal y3) * 10 + digitVal y4
      let combos := (monthCands rest).flatMap (fun md =>
        (dayCands md.2).filterMap (fun dd => if dd.2.isEmpty then some (md.1, dd.1) else none))
      match combos with
      | (m, d) :: _ => if 1 ≤ y && d ≤ daysInMonth y m then some (y, m, d) else none
      | [] => none
    else none
  | _ => none

/-- Python `"%02d"`-style two-digit zero padding (for `date.isoformat`). -/
def zeroPad2 (n : Nat) : String :=
  if n < 10 then "0" ++ toString n else toString n

/-- `datetime.isoformat()[:10]` of a date: `YYYY-MM-DD`. -/
def isoDate (y m d : Nat) : String :=
  zeroPad4 y ++ "-" ++ zeroPad2 m ++ "-" ++ zeroPad2 d

/-- A Normalized Record as built by `prepare_record`: the (renamed) field
dict with `v992`/`v880` rewritten, plus the derived keys the code assigns
(`collection`, `code`, `processing_date`, and the optional `journal`/
`issue`/`document` sub-identifiers). -/
structure NormRecord where
  fields : List (String × Option String)
  collection : String
  code : String
  processing_date : String
  journal : Option String
  issue : Option String
  document : Option String
deriving Repr, DecidableEq

/-- The `journal` key assigned by the PID-length cascade (lines 125-140). -/
def journalOf (pid : String) : Option String :=
  if pyLen pid = 9 then some pid
  else if pyLen pid = 17 then some (pySlice pid 0 9)
  else if pyLen pid = 23 ∨ pyLen pid = 28 then some (pySlice pid 1 10)
  else none

/-- The `issue` key assigned by the PID-length cascade. -/
def issueOf (pid : String) : Option String :=
  if pyLen pid = 17 then some pid
  else if pyLen pid = 23 ∨ pyLen pid = 28 then some (pySlice pid 1 18)
  else none

/-- The `document` key assigned by the PID-length cascade. -/
def documentOf (pid : String) : Option String :=
  if pyLen pid = 23 then some pid
  else if pyLen pid = 28 then some (pySlice pid 0 23)
  else none

/-- The PID precedence chain of line 114:
`record.get('v880', ...)[0]['_'] or issue_pid(record) or record.get('v400', ...)[0]['_']`.
Evaluated on the already-renamed record.  `issue_pid` may raise (see above),
in which case the chain raises. -/
def pid_chain (r : ISISRecord) : Except String (Option String) :=
  let v880 := getPrim r "v880" none
  if pyTruthy v880 then Except.ok v880
  else
    match issue_pid r with
    | Except.error e => Except.error e
    | Except.ok o =>
      if pyTruthy o then Except.ok o else Except.ok (getPrim r "v400" none)

/-- `prepare_record(collection, record)` (lines 107-142).  `today` stands for
`datetime.now().isoformat()[:10]`.  Returns `ok none` for "drop this record"
(line 117), `error e` when the normalization raises exception `e` —
propagated `TypeError` from `issue_pid`, `TypeError` from calling
`.replace` on a `None` `v91` value, or `ValueError` from
`datetime.strptime` on a malformed processing date. -/
def prepare_record (collection today : String) (record : ISISRecord) :
    Except String (Option NormRecord) :=
  match pid_chain (renameRecord record) with
  | Except.error e => Except.error e
  | Except.ok pidOpt =>
    if pyTruthy pidOpt = false then Except.ok none
    else
      match getPrim (renameRecord record) "v91" (some today) with
      | none => Except.error "TypeError"
      | some v91s =>
        match strptimeYmd (if pyEmpty (stripDashes v91s) then stripDashes today
                           else stripDashes v91s) with
        | none => Except.error "ValueError"
        | some (y, m, d) =>
          Except.ok (some {
            fields := setTag (setTag (renameRecord record).fields "v992" (some collection))
                        "v880" (some (pidOpt.getD ""))
            collection := collection
            code := pidOpt.getD ""
            processing_date := isoDate y m d
            journal := journalOf (pidOpt.getD "")
            issue := issueOf (pidOpt.getD "")
            document := documentOf (pidOpt.getD "") })

/-! ### The scan loop of `load_isis_records` (lines 144-171)

One sub-source (one `(iso, coll)` pair of `DATABASES`) is modelled as a list
of raw records.  For each record the loop calls `prepare_record` inside a
bare `except:` handler whose body is `import pdb; pdb.set_trace()` followed
by a SECOND call of `prepare_record` on the same record (a leftover
debugging artifact); `prepare_record` is deterministic on its raising paths,
so the second call raises the same exception INSIDE the handler and the whole
generator aborts — the `logger.error ... continue` lines after it are dead
code (`pdb.set_trace` is modelled as a no-op).  A falsy ISSN filter list
skips the membership test; a truthy one evaluates `record['journal']`, which
raises `KeyError` when the normalized record has no `journal` key.  The
result is the list of `(coll, record)` pairs yielded before the generator
finished or aborted, paired with the escaping exception if any. -/

/-- The `(iso, coll)` constant `DATABASES` (lines 21-26). -/
def DATABASES : List (String × String) :=
  [("title", "journals"), ("issue", "issues"), ("artigo", "articles"), ("bib4cit", "references")]

/-- One sub-source scan of `load_isis_records` (lines 153-171). -/
def load_isis_sub (coll collection today : String) (issns : List String) :
    List ISISRecord → List (String × NormRecord) × Option String
  | [] => ([], none)
  | rcd :: rest =>
    match prepare_record collection today rcd with
    | Except.error e => ([], some e)
    | Except.ok none => load_isis_sub coll collection today issns rest
    | Except.ok (some rec) =>
      if issns.isEmpty then
        let r := load_isis_sub coll collection today issns rest
        ((coll, rec) :: r.1, r.2)
      else
        match rec.journal with
        | none => ([], some "KeyError")
        | some j =>
          if j ∈ issns then
            let r := load_isis_sub coll collection today issns rest
            ((coll, rec) :: r.1, r.2)
          else load_isis_sub coll collection today issns rest

/-! ### Remote identifier loaders (lines 174-219) -/

/-- An identifier-bearing item returned by the articlemeta client. -/
structure AmIdent where
  collection : String
  code : String
  processing_date : String
deriving Repr, DecidableEq

/-- The `for issn in issns or [None]` idiom shared by the three
`load_articlemeta_*_ids` loaders: the sequence of per-query ISSN arguments —
one query per filter ISSN, or a single unfiltered (`None`) query when the
filter list is falsy. -/
def queried_issns (issns : List String) : List (Option String) :=
  if issns.isEmpty then [none] else issns.map some

/-- `load_articlemeta_issues_ids` (lines 174-187), with the remote client
abstracted as the `fetch` function from one query argument to its items.
(`load_articlemeta_documents_ids` is line-for-line identical.) -/
def load_articlemeta_issues_ids (fetch : Option String → List AmIdent) (issns : List String) :
    List String :=
  (queried_issns issns).flatMap (fun i =>
    (fetch i).map (fun x => pyJoin "_" [x.collection, x.code, stripDashes x.processing_date]))

/-- `load_articlemeta_journals_ids` (lines 206-219): same query pattern,
two-component keys. -/
def load_articlemeta_journals_ids (fetch : Option String → List AmIdent) (issns : List String) :
    List String :=
  (queried_issns issns).flatMap (fun i =>
    (fetch i).map (fun x => pyJoin "_" [x.collection, x.code]))

/-! ### Reconciliation executor phases of `run` (lines 222-419) -/

/-- Outcome of one remote `delete_*` call (external collaborator). -/
inductive DelOutcome
  | ok
  | unauthorized
  | fatal
deriving Repr, DecidableEq

/-- Outcome of one `ctrl.load_*` metadata fetch (external collaborator):
it may raise, return an empty/falsy payload, or return a payload. -/
inductive LoadOutcome
  | raised
  | falsy
  | payload (meta : String)
deriving Repr, DecidableEq

/-- Outcome of one remote `add_*` submission (external collaborator). -/
inductive AddOutcome
  | ok
  | serverError
  | fatal
deriving Repr, DecidableEq

/-- The loop body of a removal phase: for each key, `item.split('_')`, then
`rc.delete_*(item[1], item[0])` with only `UnauthorizedAccess` caught (a
warning, key skipped).  Result: the list of `(code, collection)` arguments of
the delete calls actually attempted, and the escaping exception if any —
`IndexError` when a key has no `_` (the call is then never made), or an
uncaught delete failure (the call was made; the loop stops). -/
def removal_loop (outcome : String → String → DelOutcome) :
    List String → List (String × String) × Option String
  | [] => ([], none)
  | item :: rest =>
    match pySplit item '_' with
    | a :: b :: _ =>
      match outcome b a with
      | DelOutcome.fatal => ([(b, a)], some "uncaught")
      | _ =>
        let r := removal_loop outcome rest
        ((b, a) :: r.1, r.2)
    | _ => ([], some "IndexError")

/-- A threshold-gated removal phase (`if not len(to_remove) > limit: ...
else: skip`, lines 298-306 / 352-360 / 408-417). -/
def removal_phase (limit : Nat) (outcome : String → String → DelOutcome)
    (toRemove : List String) : List (String × String) × Option String :=
  if toRemove.length > limit then ([], none)
  else removal_loop outcome toRemove

/-- The document removal phase: threshold 2000 (line 298). -/
def remove_documents_phase (outcome : String → String → DelOutcome)
    (toRemove : List String) : List (String × String) × Option String :=
  removal_phase 2000 outcome toRemove

/-- The journal removal phase: threshold 5 (line 352). -/
def remove_journals_phase (outcome : String → String → DelOutcome)
    (toRemove : List String) : List (String × String) × Option String :=
  removal_phase 5 outcome toRemove

/-- The issue removal phase: threshold 20 (line 408). -/
def remove_issues_phase (outcome : String → String → DelOutcome)
    (toRemove : List String) : List (String × String) × Option String :=
  removal_phase 20 outcome toRemove

/-- The `(item[1], item[0])` pair a well-formed key is split into. -/
def extractDel (item : String) : String × String :=
  match pySplit item '_' with
  | a :: b :: _ => (b, a)
  | _ => ("", "")

/-- The `(item[0], item[1])` pair an addition key is split into
(`(collection, code)`). -/
def extractAdd (item : String) : String × String :=
  match pySplit item '_' with
  | a :: b :: _ => (a, b)
  | _ => ("", "")

/-- An addition phase (lines 259-291 for documents; journals and issues are
structurally identical).  For each key: split, `ctrl.load_*` under a bare
`except:` (any raise → log, continue); falsy payload → log, continue;
otherwise `rc.add_*` with only `ServerError` caught (log, continue) — any
other submission failure propagates and stops the loop.  Result: the
`(collection, code)` pairs for which a metadata fetch was attempted, the
payloads for which a submission was attempted, and the escaping exception if
any (`IndexError` when a key has no `_`: it is caught by the bare `except`,
but the handler's own log call indexes `item[1]` again and re-raises). -/
def addition_phase (load : String → String → LoadOutcome) (submit : String → AddOutcome) :
    List String → List (String × String) × List String × Option String
  | [] => ([], [], none)
  | item :: rest =>
    match pySplit item '_' with
    | a :: b :: _ =>
      match load a b with
      | LoadOutcome.raised =>
        let r := addition_phase load submit rest
        ((a, b) :: r.1, r.2.1, r.2.2)
      | LoadOutcome.falsy =>
        let r := addition_phase load submit rest
        ((a, b) :: r.1, r.2.1, r.2.2)
      | LoadOutcome.payload m =>
        match submit m with
        | AddOutcome.fatal => ([(a, b)], [m], some "uncaught")
        | _ =>
          let r := addition_phase load submit rest
          ((a, b) :: r.1, m :: r.2.1, r.2.2)
    | _ => ([], [], some "IndexError")

/-! ### Structural lemmas about `prepare_record` -/

/-- Inversion: a successfully normalized record carries exactly the
sub-identifiers of the PID-length cascade, computed from its own `code`. -/
theorem prepare_record_shape (c t : String) (r : ISISRecord) (rec : NormRecord)
    (h : prepare_record c t r = Except.ok (some rec)) :
    rec.journal = journalOf rec.code ∧ rec.issue = issueOf rec.code ∧
    rec.document = documentOf rec.code ∧ rec.collection = c := by
  unfold prepare_record at h
  split at h
  · exact absurd h (by simp)
  · split at h
    · exact absurd h (by simp)
    · split at h
      · exact absurd h (by simp)
      · split at h
        · exact absurd h (by simp)
        · simp only [Except.ok.injEq, Option.some.injEq] at h
          subst h
          exact ⟨rfl, rfl, rfl, rfl⟩

/-- Inversion: the `code` of a successfully normalized record is the value
produced by the PID precedence chain. -/
theorem prepare_record_pid (c t : String) (r : ISISRecord) (po : Option String)
    (rec : NormRecord) (hc : pid_chain (renameRecord r) = Except.ok po)
    (h : prepare_record c t r = Except.ok (some rec)) :
    po = some rec.code := by
  unfold prepare_record at h
  rw [hc] at h
  dsimp only at h
  split at h
  · exact absurd h (by simp)
  · rename_i hfalse
    cases po with
    | none => simp [pyTruthy] at hfalse
    | some s =>
      split at h
      · exact absurd h (by simp)
      · split at h
        · exact absurd h (by simp)
        · simp only [Except.ok.injEq, Option.some.injEq] at h
          subst h
          rfl

/-- A falsy PID chain value makes `prepare_record` signal "drop". -/
theorem prepare_record_drop (c t : String) (r : ISISRecord) (po : Option String)
    (hc : pid_chain (renameRecord r) = Except.ok po)
    (hf : pyTruthy po = false) :
    prepare_record c t r = Except.ok none := by
  unfold prepare_record
  rw [hc]
  dsimp only
  rw [hf]
  rfl

/-- Conversely, `prepare_record` signals "drop" only on a falsy chain value. -/
theorem prepare_record_none_truthy (c t : String) (r : ISISRecord) (po : Option String)
    (hc : pid_chain (renameRecord r) = Except.ok po)
    (h : prepare_record c t r = Except.ok none) :
    pyTruthy po = false := by
  by_contra hb
  have hb' : pyTruthy po = true := by
    cases hv : pyTruthy po
    · exact absurd hv hb
    · rfl
  unfold prepare_record at h
  rw [hc] at h
  dsimp only at h
  rw [hb'] at h
  simp only [Bool.true_eq_false, if_false] at h
  split at h
  · exact absurd h (by simp)
  · split at h
    · exact absurd h (by simp)
    · exact absurd h (by simp)

/-- C2: for every record that `prepare_record` emits, the sub-identifier
fields match the PID-length decomposition table: length 9 ⇒ journal = pid
only; 17 ⇒ journal = pid[0:9], issue = pid; 23 ⇒ journal = pid[1:10],
issue = pid[1:18], document = pid; 28 ⇒ journal = pid[1:10],
issue = pid[1:18], document = pid[0:23]. -/
theorem prepare_record_pid_decomposition (c t : String) (r : ISISRecord) (rec : NormRecord)
    (h : prepare_record c t r = Except.ok (some rec)) :
    (pyLen rec.code = 9 →
      rec.journal = some rec.code ∧ rec.issue = none ∧ rec.document = none) ∧
    (pyLen rec.code = 17 →
      rec.journal = some (pySlice rec.code 0 9) ∧ rec.issue = some rec.code ∧
      rec.document = none) ∧
    (pyLen rec.code = 23 →
      rec.journal = some (pySlice rec.code 1 10) ∧ rec.issue = some (pySlice rec.code 1 18) ∧
      rec.document = some rec.code) ∧
    (pyLen rec.code = 28 →
      rec.journal = some (pySlice rec.code 1 10) ∧ rec.issue = some (pySlice rec.code 1 18) ∧
      rec.document = some (pySlice rec.code 0 23)) := by
  obtain ⟨hj, hi, hd, -⟩ := prepare_record_shape c t r rec h
  refine ⟨?_, ?_, ?_, ?_⟩ <;> intro hl <;>
    simp [hj, hi, hd, journalOf, issueOf, documentOf, hl]

/-- Raw record whose `v880` holds the 17-character issue PID of the spec's
example. -/
def rec17src : ISISRecord := ⟨[("880", some "0032-281X20020003"), ("91", some "20200101")]⟩

/-- The normalized record `prepare_record` produces for `rec17src`. -/
def rec17 : NormRecord :=
  { fields := [("v880", some "0032-281X20020003"), ("v91", some "20200101"), ("v992", some "scl")]
    collection := "scl"
    code := "0032-281X20020003"
    processing_date := "2020-01-01"
    journal := some "0032-281X"
    issue := some "0032-281X20020003"
    document := none }

/-- C2 witness: the 17-character PID `"0032-281X20020003"` yields journal
`"0032-281X"`, issue equal to the full PID, and no document field. -/
theorem prepare_record_pid_decomposition_witness :
    prepare_record "scl" "2024-01-01" rec17src = Except.ok (some rec17) ∧
    rec17.journal = some "0032-281X" ∧
    rec17.issue = some "0032-281X20020003" ∧
    rec17.document = none := by
  have h : prepare_record "scl" "2024-01-01" rec17src = Except.ok (some rec17) := by decide
  have h2 := (prepare_record_pid_decomposition "scl" "2024-01-01" rec17src rec17 h).2.1
    (by decide)
  exact ⟨h, h2.1.trans (by decide), h2.2.1, h2.2.2⟩

/-! ### PID precedence (claim C4) -/

/-- C4: the PID used by `prepare_record` follows the precedence chain — the
`v880` primary value when it yields a PID (is truthy); otherwise the computed
issue PID when it yields one; otherwise the `v400` primary value when truthy;
and a record for which none of the three yields a PID is dropped:
`prepare_record` returns the "drop" signal and the scan loop of
`load_isis_records` yields nothing for it. -/
theorem prepare_record_pid_precedence (coll c t : String) (issns : List String)
    (r : ISISRecord) :
    (∀ (v : String) (rec : NormRecord),
       getPrim (renameRecord r) "v880" none = some v → pyTruthy (some v) = true →
       prepare_record c t r = Except.ok (some rec) → rec.code = v) ∧
    (∀ (p : String) (rec : NormRecord),
       pyTruthy (getPrim (renameRecord r) "v880" none) = false →
       issue_pid (renameRecord r) = Except.ok (some p) → pyTruthy (some p) = true →
       prepare_record c t r = Except.ok (some rec) → rec.code = p) ∧
    (∀ (op : Option String) (v : String) (rec : NormRecord),
       pyTruthy (getPrim (renameRecord r) "v880" none) = false →
       issue_pid (renameRecord r) = Except.ok op → pyTruthy op = false →
       getPrim (renameRecord r) "v400" none = some v → pyTruthy (some v) = true →
       prepare_record c t r = Except.ok (some rec) → rec.code = v) ∧
    (∀ op : Option String,
       pyTruthy (getPrim (renameRecord r) "v880" none) = false →
       issue_pid (renameRecord r) = Except.ok op → pyTruthy op = false →
       pyTruthy (getPrim (renameRecord r) "v400" none) = false →
       prepare_record c t r = Except.ok none ∧
       ∀ rest : List ISISRecord,
         load_isis_sub coll c t issns (r :: rest) = load_isis_sub coll c t issns rest) := by
  refine ⟨?_, ?_, ?_, ?_⟩
  · intro v rec h880 htr hp
    have hc : pid_chain (renameRecord r) = Except.ok (some v) := by
      simp [pid_chain, h880, htr]
    have := prepare_record_pid c t r (some v) rec hc hp
    exact (Option.some.inj this).symm
  · intro p rec h880 hip htr hp
    have hc : pid_chain (renameRecord r) = Except.ok (some p) := by
      simp [pid_chain, h880, hip, htr]
    have := prepare_record_pid c t r (some p) rec hc hp
    exact (Option.some.inj this).symm
  · intro op v rec h880 hip hof h400 htr hp
    have hc : pid_chain (renameRecord r) = Except.ok (some v) := by
      simp [pid_chain, h880, hip, hof, h400]
    have := prepare_record_pid c t r (some v) rec hc hp
    exact (Option.some.inj this).symm
  · intro op h880 hip hof h400
    have hc : pid_chain (renameRecord r) = Except.ok (getPrim (renameRecord r) "v400" none) := by
      simp [pid_chain, h880, hip, hof]
    have hdrop := prepare_record_drop c t r _ hc h400
    refine ⟨hdrop, ?_⟩
    intro rest
    simp [load_isis_sub, hdrop]

/-- Record with only a `v36` field whose deterministic normalization drops it
is not what we need here; this one has no PID source at all. -/
def exRecordNoPid : ISISRecord := ⟨[("70", some "Some Author")]⟩

/-- C4 witness: a record with no `v880`, no derivable issue PID and no `v400`
is dropped by `prepare_record`, and the scan yields nothing for it. -/
theorem prepare_record_pid_precedence_witness :
    prepare_record "scl" "2024-01-01" exRecordNoPid = Except.ok none ∧
    load_isis_sub "articles" "scl" "2024-01-01" [] [exRecordNoPid] = ([], none) := by
  have h := (prepare_record_pid_precedence "articles" "scl" "2024-01-01" [] exRecordNoPid).2.2.2
    none (by decide) (by decide) (by decide) (by decide)
  exact ⟨h.1, (h.2 []).trans rfl⟩

/-! ### Truthiness of the precedence chain (claim C10) -/

/-- Auxiliary: `find?` for one tag is unchanged by filtering out another tag. -/
theorem find?_filter_ne (fs : List (String × Option String)) (tag tag' : String)
    (h : tag' ≠ tag) :
    (fs.filter (fun q => q.1 != tag)).find? (fun q => q.1 == tag') =
      fs.find? (fun q => q.1 == tag') := by
  induction fs with
  | nil => rfl
  | cons p rest ih =>
    rw [List.filter_cons]
    by_cases hp : p.1 = tag'
    · have h1 : (p.1 != tag) = true := by simp [hp, bne_iff_ne, h]
      have h2 : (p.1 == tag') = true := by simp [hp]
      simp only [if_pos h1, List.find?_cons, h2]
    · have h2 : (p.1 == tag') = false := by simp [hp]
      by_cases h1 : (p.1 != tag) = true
      · simp only [if_pos h1, List.find?_cons, h2]
        exact ih
      · rw [if_neg h1, ih]
        simp only [List.find?_cons, h2]

/-- Erasing a tag makes its lookup fail. -/
theorem getTag_eraseTag_self (fs : List (String × Option String)) (tag : String) :
    getTag ⟨eraseTag fs tag⟩ tag = none := by
  unfold getTag eraseTag
  have hfind : (List.filter (fun q => q.1 != tag) fs).find? (fun q => q.1 == tag) = none := by
    rw [List.find?_eq_none]
    intro x hx
    have hmem := List.mem_filter.1 hx
    simp only [bne_iff_ne] at hmem
    simp [hmem.2]
  rw [hfind]
  rfl

/-- Erasing a tag leaves other lookups unchanged. -/
theorem getTag_eraseTag_ne (fs : List (String × Option String)) (tag tag' : String)
    (h : tag' ≠ tag) :
    getTag ⟨eraseTag fs tag⟩ tag' = getTag ⟨fs⟩ tag' := by
  unfold getTag eraseTag
  rw [find?_filter_ne fs tag tag' h]

/-- Erasing a tag leaves other primary-value reads unchanged. -/
theorem getPrim_eraseTag_ne (fs : List (String × Option String)) (tag tag' : String)
    (d : Option String) (h : tag' ≠ tag) :
    getPrim ⟨eraseTag fs tag⟩ tag' d = getPrim ⟨fs⟩ tag' d := by
  unfold getPrim
  rw [getTag_eraseTag_ne fs tag tag' h]

/-- `issue_pid` only reads `v35` and `v36`, so erasing any other tag leaves
it unchanged. -/
theorem issue_pid_eraseTag (r : ISISRecord) (tag : String)
    (h35 : "v35" ≠ tag) (h36 : "v36" ≠ tag) :
    issue_pid ⟨eraseTag r.fields tag⟩ = issue_pid r := by
  unfold issue_pid
  rw [getPrim_eraseTag_ne _ _ _ _ h36, getPrim_eraseTag_ne _ _ _ _ h35]

/-- C10: the precedence chain is governed by truthiness, not presence — a
`v880` tag bound to the empty string behaves exactly as an absent `v880` (the
chain value is the same); symmetrically an empty-string `v400` yields no PID
(the record is dropped even though `v400` is present, provided `v880` and the
issue PID are also falsy); and `prepare_record` drops a record exactly when
the chain's value is falsy. -/
theorem pid_truthiness_fallthrough :
    (∀ r : ISISRecord, getTag r "v880" = some (some "") →
       pid_chain r = pid_chain ⟨eraseTag r.fields "v880"⟩) ∧
    (∀ (c t : String) (r : ISISRecord) (op : Option String),
       getTag (renameRecord r) "v400" = some (some "") →
       pyTruthy (getPrim (renameRecord r) "v880" none) = false →
       issue_pid (renameRecord r) = Except.ok op → pyTruthy op = false →
       prepare_record c t r = Except.ok none) ∧
    (∀ (c t : String) (r : ISISRecord) (po : Option String),
       pid_chain (renameRecord r) = Except.ok po →
       (prepare_record c t r = Except.ok none ↔ pyTruthy po = false)) := by
  refine ⟨?_, ?_, ?_⟩
  · intro r h880
    have e1 : getPrim r "v880" none = some "" := by
      unfold getPrim
      rw [h880]
      rfl
    have e2 : getPrim ⟨eraseTag r.fields "v880"⟩ "v880" none = none := by
      unfold getPrim
      rw [getTag_eraseTag_self]
      rfl
    have e3 := issue_pid_eraseTag r "v880" (by decide) (by decide)
    have e4 : getPrim ⟨eraseTag r.fields "v880"⟩ "v400" none = getPrim r "v400" none :=
      getPrim_eraseTag_ne r.fields "v880" "v400" none (by decide)
    simp only [pid_chain, e1, e2, e3, e4]
    rfl
  · intro c t r op h400 h880 hip hof
    have e400 : getPrim (renameRecord r) "v400" none = some "" := by
      unfold getPrim
      rw [h400]
      rfl
    have hc : pid_chain (renameRecord r) = Except.ok (some "") := by
      simp [pid_chain, h880, hip, hof, e400]
    exact prepare_record_drop c t r (some "") hc (by decide)
  · intro c t r po hc
    constructor
    · exact prepare_record_none_truthy c t r po hc
    · exact prepare_record_drop c t r po hc

/-- Record with an empty-string `v880` and issue-PID fields. -/
def exRecordEmptyV880 : ISISRecord :=
  ⟨[("v880", some ""), ("v35", some "0032-281X"), ("v36", some "20023")]⟩

/-- Record with empty-string `v880` and `v400` and nothing else. -/
def exRecordEmptyBoth : ISISRecord := ⟨[("v880", some ""), ("v400", some "")]⟩

/-- C10 witness: with `v880 = ""` the chain equals the chain of the record
without `v880` (and falls through to the issue PID); with `v880 = ""` and
`v400 = ""` and no issue PID the record is dropped. -/
theorem pid_truthiness_fallthrough_witness :
    pid_chain exRecordEmptyV880 = pid_chain ⟨eraseTag exRecordEmptyV880.fields "v880"⟩ ∧
    pid_chain exRecordEmptyV880 = Except.ok (some "0032-281X20020003") ∧
    prepare_record "scl" "2024-01-01" exRecordEmptyBoth = Except.ok none := by
  refine ⟨pid_truthiness_fallthrough.1 exRecordEmptyV880 rfl, by decide, ?_⟩
  exact pid_truthiness_fallthrough.2.1 "scl" "2024-01-01" exRecordEmptyBoth none rfl
    (by decide) (by decide) (by decide)

/-! ### Record-integrity errors abort the scan (claim C6) -/

/-- Record whose normalization deterministically raises: `v36` present but
`v35` and `v880` absent, so the PID chain calls `issue_pid`, which raises an
uncaught `TypeError` (see `issue_pid`). -/
def badRec : ISISRecord := ⟨[("36", some "20023")]⟩

/-- C6 (code bug): a raw record whose normalization raises does NOT get
logged-and-skipped — the bare `except:` handler re-invokes
`prepare_record` on the same record (after a leftover `pdb.set_trace()`),
which raises the same exception inside the handler, so the whole scan
aborts and the `logger.error / continue` lines are dead code.  Here the
same good record that is emitted when scanned alone is lost entirely when
it follows a bad record. -/
theorem integrity_error_aborts_scan :
    prepare_record "scl" "2024-01-01" badRec = Except.error "TypeError" ∧
    (load_isis_sub "articles" "scl" "2024-01-01" [] [rec17src]).1.length = 1 ∧
    load_isis_sub "articles" "scl" "2024-01-01" [] [badRec, rec17src] =
      ([], some "TypeError") := by
  decide

/-! ### Degenerate PID lengths (claim C7) -/

/-- Record whose `v880` PID has the degenerate length 4. -/
def shortPidRec : ISISRecord := ⟨[("880", some "X123"), ("91", some "20200101")]⟩

/-- The normalized record `prepare_record` produces for `shortPidRec`. -/
def shortPidNorm : NormRecord :=
  { fields := [("v880", some "X123"), ("v91", some "20200101"), ("v992", some "scl")]
    collection := "scl"
    code := "X123"
    processing_date := "2020-01-01"
    journal := none
    issue := none
    document := none }

/-- C7 counterexample: a record whose derived PID has a degenerate length is
emitted when NO ISSN filter is supplied, but when a filter IS supplied the
membership test `record['journal'] in issns` raises `KeyError` (the record
has no `journal` key) and the scan aborts — the claim's "whether or not an
ISSN filter set is supplied" is false. -/
theorem degenerate_pid_filter_keyerror :
    load_isis_sub "articles" "scl" "2024-01-01" ["0032-281X"] [shortPidRec] =
      ([], some "KeyError") ∧
    (load_isis_sub "articles" "scl" "2024-01-01" [] [shortPidRec]).1.length = 1 := by
  decide

/-- C7 amended: a record whose derived PID has a length other than
9/17/23/28 yields a Normalized Record lacking all three sub-identifier
fields, and — when no ISSN filter is supplied — the scan loop still emits
it; with a filter supplied the journal lookup raises `KeyError` instead
(see the counterexample). -/
theorem degenerate_pid_emitted_unfiltered (coll c t : String) (r : ISISRecord)
    (rec : NormRecord) (rest : List ISISRecord)
    (hp : prepare_record c t r = Except.ok (some rec))
    (h9 : pyLen rec.code ≠ 9) (h17 : pyLen rec.code ≠ 17)
    (h23 : pyLen rec.code ≠ 23) (h28 : pyLen rec.code ≠ 28) :
    rec.journal = none ∧ rec.issue = none ∧ rec.document = none ∧
    load_isis_sub coll c t [] (r :: rest) =
      ((coll, rec) :: (load_isis_sub coll c t [] rest).1,
       (load_isis_sub coll c t [] rest).2) := by
  obtain ⟨hj, hi, hd, -⟩ := prepare_record_shape c t r rec hp
  refine ⟨?_, ?_, ?_, ?_⟩
  · rw [hj]
    simp [journalOf, h9, h17, h23, h28]
  · rw [hi]
    simp [issueOf, h17, h23, h28]
  · rw [hd]
    simp [documentOf, h23, h28]
  · simp [load_isis_sub, hp]

/-- C7 amended witness: the length-4 PID record is normalized without
sub-identifiers and emitted by the unfiltered scan. -/
theorem degenerate_pid_emitted_unfiltered_witness :
    shortPidNorm.journal = none ∧ shortPidNorm.issue = none ∧
    shortPidNorm.document = none ∧
    load_isis_sub "articles" "scl" "2024-01-01" [] [shortPidRec] =
      ([("articles", shortPidNorm)], none) := by
  have h := degenerate_pid_emitted_unfiltered "articles" "scl" "2024-01-01" shortPidRec
    shortPidNorm [] (by decide) (by decide) (by decide) (by decide) (by decide)
  exact ⟨h.1, h.2.1, h.2.2.1, (h.2.2.2).trans (by decide)⟩

/-! ### ISSN filter correctness (claim C9) -/

/-- C9: when a (non-empty) ISSN filter is supplied, every record the scan
loop emits has a `journal` id belonging to the filter, and the remote
identifier loaders issue one identifier-listing query per filter ISSN — the
queried arguments are exactly the filter ISSNs, never the unfiltered `None`
query. -/
theorem issn_filter_correctness :
    (∀ (coll c t : String) (issns : List String) (recs : List ISISRecord),
       ∀ (cl : String) (rec : NormRecord),
       issns ≠ [] →
       (cl, rec) ∈ (load_isis_sub coll c t issns recs).1 →
       ∃ j, rec.journal = some j ∧ j ∈ issns) ∧
    (∀ issns : List String, issns ≠ [] →
       queried_issns issns = issns.map some ∧ ¬ (none ∈ queried_issns issns)) := by
  constructor
  · intro coll c t issns recs
    induction recs with
    | nil =>
      intro cl rec hne hmem
      simp [load_isis_sub] at hmem
    | cons r rest ih =>
      intro cl rec hne hmem
      have hie : issns.isEmpty = false := by
        cases issns with
        | nil => exact absurd rfl hne
        | cons a l => rfl
      cases hpr : prepare_record c t r with
      | error e =>
        rw [load_isis_sub, hpr] at hmem
        simp at hmem
      | ok o =>
        cases o with
        | none =>
          rw [load_isis_sub, hpr] at hmem
          exact ih cl rec hne hmem
        | some rec' =>
          rw [load_isis_sub, hpr] at hmem
          rw [hie] at hmem
          simp only [Bool.false_eq_true, if_false] at hmem
          cases hj : rec'.journal with
          | none =>
            rw [hj] at hmem
            simp at hmem
          | some j =>
            rw [hj] at hmem
            dsimp only at hmem
            by_cases hin : j ∈ issns
            · rw [if_pos hin] at hmem
              rcases List.mem_cons.1 hmem with heq | hmem'
              · have h2 : rec = rec' := congrArg Prod.snd heq
                exact ⟨j, h2 ▸ hj, hin⟩
              · exact ih cl rec hne hmem'
            · rw [if_neg hin] at hmem
              exact ih cl rec hne hmem
  · intro issns hne
    cases issns with
    | nil => exact absurd rfl hne
    | cons a l =>
      constructor
      · rfl
      · intro hc
        rw [show queried_issns (a :: l) = (a :: l).map some from rfl] at hc
        rcases List.mem_map.1 hc with ⟨x, -, hx⟩
        exact Option.noConfusion hx

/-- C9 witness: with filter `["0032-281X"]` the emitted record's journal is
in the filter, and exactly one query argument — `some "0032-281X"` — is
issued. -/
theorem issn_filter_correctness_witness :
    (∃ j, rec17.journal = some j ∧ j ∈ ["0032-281X"]) ∧
    queried_issns ["0032-281X"] = [some "0032-281X"] := by
  constructor
  · exact issn_filter_correctness.1 "articles" "scl" "2024-01-01" ["0032-281X"] [rec17src]
      "articles" rec17 (by decide) (by decide)
  · exact ((issn_filter_correctness.2 ["0032-281X"] (by decide)).1).trans rfl

/-! ### Threshold gating of removals (claim C5) -/

/-- Below the gate, with well-formed keys and no unmodelled delete failure,
the removal loop attempts exactly one delete per key. -/
theorem removal_loop_all (outcome : String → String → DelOutcome) (l : List String)
    (hw : ∀ i ∈ l, 2 ≤ (pySplit i '_').length)
    (hf : ∀ a b, outcome a b ≠ DelOutcome.fatal) :
    removal_loop outcome l = (l.map extractDel, none) := by
  induction l with
  | nil => rfl
  | cons item rest ih =>
    have h2 := hw item (List.mem_cons_self item rest)
    have ihr := ih (fun i hi => hw i (List.mem_cons_of_mem item hi))
    rcases hsp : pySplit item '_' with _ | ⟨a, tl⟩
    · rw [hsp] at h2
      simp at h2
    · rcases tl with _ | ⟨b, tail⟩
      · rw [hsp] at h2
        simp at h2
      · have hnf := hf b a
        rw [removal_loop, hsp]
        cases ho : outcome b a with
        | fatal => exact absurd ho hnf
        | ok =>
          dsimp only
          rw [ihr]
          simp [extractDel, hsp]
        | unauthorized =>
          dsimp only
          rw [ihr]
          simp [extractDel, hsp]

/-- Gating of one removal phase at its configured limit. -/
theorem removal_phase_gating (limit : Nat) (outcome : String → String → DelOutcome)
    (l : List String) :
    (l.length > limit → (removal_phase limit outcome l).1 = []) ∧
    (l.length ≤ limit → (∀ i ∈ l, 2 ≤ (pySplit i '_').length) →
      (∀ a b, outcome a b ≠ DelOutcome.fatal) →
      removal_phase limit outcome l = (l.map extractDel, none)) := by
  constructor
  · intro hgt
    simp [removal_phase, hgt]
  · intro hle hw hf
    have hngt : ¬ (l.length > limit) := not_lt.2 hle
    simp only [removal_phase, if_neg hngt]
    exact removal_loop_all outcome l hw hf

/-- C5: if the documents to-remove set has more than 2000 entries, zero
delete calls are issued (likewise at 5 for journals and 20 for issues); at
or below the threshold — given well-formed keys and no unmodelled delete
failure — a delete call is attempted for every key in the set. -/
theorem removal_threshold_gating (outcome : String → String → DelOutcome)
    (docs journals issues : List String) :
    ((docs.length > 2000 → (remove_documents_phase outcome docs).1 = []) ∧
     (docs.length ≤ 2000 → (∀ i ∈ docs, 2 ≤ (pySplit i '_').length) →
       (∀ a b, outcome a b ≠ DelOutcome.fatal) →
       remove_documents_phase outcome docs = (docs.map extractDel, none))) ∧
    ((journals.length > 5 → (remove_journals_phase outcome journals).1 = []) ∧
     (journals.length ≤ 5 → (∀ i ∈ journals, 2 ≤ (pySplit i '_').length) →
       (∀ a b, outcome a b ≠ DelOutcome.fatal) →
       remove_journals_phase outcome journals = (journals.map extractDel, none))) ∧
    ((issues.length > 20 → (remove_issues_phase outcome issues).1 = []) ∧
     (issues.length ≤ 20 → (∀ i ∈ issues, 2 ≤ (pySplit i '_').length) →
       (∀ a b, outcome a b ≠ DelOutcome.fatal) →
       remove_issues_phase outcome issues = (issues.map extractDel, none))) := by
  exact ⟨removal_phase_gating 2000 outcome docs,
         removal_phase_gating 5 outcome journals,
         removal_phase_gating 20 outcome issues⟩

/-- C5 witness: six journal keys exceed the journal threshold of 5, so no
journal delete is attempted; two document keys are within the document
threshold, so both deletes are attempted with split arguments. -/
theorem removal_threshold_gating_witness :
    (remove_journals_phase (fun _ _ => DelOutcome.ok)
      ["c_1", "c_2", "c_3", "c_4", "c_5", "c_6"]).1 = [] ∧
    remove_documents_phase (fun _ _ => DelOutcome.ok) ["c_a", "c_b"] =
      ([("a", "c"), ("b", "c")], none) := by
  constructor
  · exact (removal_threshold_gating (fun _ _ => DelOutcome.ok) []
      ["c_1", "c_2", "c_3", "c_4", "c_5", "c_6"] []).2.1.1 (by decide)
  · exact ((removal_threshold_gating (fun _ _ => DelOutcome.ok) ["c_a", "c_b"] [] []).1.2
      (by decide) (by decide) (fun a b => by decide)).trans (by decide)

/-! ### Per-item isolation in the addition phases (claim C8) -/

/-- C8: each to-add key is processed independently — with well-formed keys
and no unmodelled submission failure, the addition phase attempts a metadata
fetch for every key in the batch, regardless of the per-key fetch and
submission outcomes; a submission is attempted exactly for those keys whose
fetch returned a truthy payload; and nothing escapes the loop. -/
theorem addition_per_item_isolation (load : String → String → LoadOutcome)
    (submit : String → AddOutcome) (keys : List String)
    (hw : ∀ i ∈ keys, 2 ≤ (pySplit i '_').length)
    (hs : ∀ m, submit m ≠ AddOutcome.fatal) :
    (addition_phase load submit keys).1 = keys.map extractAdd ∧
    (addition_phase load submit keys).2.1 =
      keys.filterMap (fun i =>
        match load (extractAdd i).1 (extractAdd i).2 with
        | LoadOutcome.payload m => some m
        | _ => none) ∧
    (addition_phase load submit keys).2.2 = none := by
  induction keys with
  | nil => exact ⟨rfl, rfl, rfl⟩
  | cons item rest ih =>
    have h2 := hw item (List.mem_cons_self item rest)
    have ihr := ih (fun i hi => hw i (List.mem_cons_of_mem item hi))
    rcases hsp : pySplit item '_' with _ | ⟨a, tl⟩
    · rw [hsp] at h2
      simp at h2
    · rcases tl with _ | ⟨b, tail⟩
      · rw [hsp] at h2
        simp at h2
      · have hext : extractAdd item = (a, b) := by
          simp [extractAdd, hsp]
        cases hl : load a b with
        | raised =>
          refine ⟨?_, ?_, ?_⟩ <;>
            simp [addition_phase, hsp, hl, hext, ihr.1, ihr.2.1, ihr.2.2]
        | falsy =>
          refine ⟨?_, ?_, ?_⟩ <;>
            simp [addition_phase, hsp, hl, hext, ihr.1, ihr.2.1, ihr.2.2]
        | payload m =>
          cases hsub : submit m with
          | fatal => exact absurd hsub (hs m)
          | ok =>
            refine ⟨?_, ?_, ?_⟩ <;>
              simp [addition_phase, hsp, hl, hsub, hext, ihr.1, ihr.2.1, ihr.2.2]
          | serverError =>
            refine ⟨?_, ?_, ?_⟩ <;>
              simp [addition_phase, hsp, hl, hsub, hext, ihr.1, ihr.2.1, ihr.2.2]

/-- Metadata fetch oracle that fails for the key `bad` and returns a payload
for every other key. -/
def loadWithOneFailure (_a b : String) : LoadOutcome :=
  if b == "bad" then LoadOutcome.raised else LoadOutcome.payload b

/-- C8 witness: with the middle key's fetch raising, all three keys still
attempt their own fetch, the two good keys still submit, and the loop
finishes. -/
theorem addition_per_item_isolation_witness :
    (addition_phase loadWithOneFailure (fun _ => AddOutcome.ok)
      ["c_good1", "c_bad", "c_good2"]).1 =
        [("c", "good1"), ("c", "bad"), ("c", "good2")] ∧
    (addition_phase loadWithOneFailure (fun _ => AddOutcome.ok)
      ["c_good1", "c_bad", "c_good2"]).2.1 = ["good1", "good2"] ∧
    (addition_phase loadWithOneFailure (fun _ => AddOutcome.ok)
      ["c_good1", "c_bad", "c_good2"]).2.2 = none := by
  have h := addition_per_item_isolation loadWithOneFailure (fun _ => AddOutcome.ok)
    ["c_good1", "c_bad", "c_good2"] (by decide) (fun _ h => AddOutcome.noConfusion h)
  exact ⟨h.1.trans (by decide), (h.2.1).trans (by decide), h.2.2⟩

end Isis2Mongo
